import Mathlib

/-!
Shallow embedding of the ESA dropshipping dashboard client
(`src/streamlit_app.py`) and verification of its specification.

The program is a Streamlit page: it resolves an API base URL, wraps
`requests.get` / `requests.post` in two helpers (`api_get`, `api_post`)
that turn every failure into an on-screen message plus a `None` result,
and renders four panels that call those helpers.

Modelling conventions:
* Python strings are sequences of Unicode code points, embedded as
  `List Char` (`PyStr`).  `f"..."` formatting becomes list append.
* Parsed JSON values are the inductive `Json`.  Note that a response
  body `"null"` parses to `Json.null`, i.e. Python `None`; the `Option`
  layer on results models the explicit `return None` of the helpers on failure.
* One HTTP exchange is an explicit `Transport` input: either an
  exception raised by the `requests` call itself (timeout, connection
  error) or a delivered response.  A delivered response carries the
  final status, the body text, the result of `r.json()` (`none` models a
  JSON decode failure raising), and the message texts of the exceptions
  that `raise_for_status` or `r.json()` would raise.
* `st.error` / `st.success` / `st.info` emissions are collected as
  explicit message lists or `Option` render results.
-/

/-- Python strings: sequences of Unicode code points. -/
abbrev PyStr := List Char

/-- Code points of a Lean string literal, used to embed Python literals. -/
def str (s : String) : PyStr := s.data

/-- Decimal rendering of a natural number, as in Python `f"{n}"`. -/
def natRepr (n : Nat) : PyStr := (toString n).data

/-- Decimal rendering of an integer, as in Python `f"{n}"`. -/
def intRepr (n : Int) : PyStr := (toString n).data

/-- Parsed JSON values as produced by `r.json()`. -/
inductive Json where
  | null : Json
  | bool (b : Bool) : Json
  | num (n : Int) : Json
  | str (s : PyStr) : Json
  | arr (elems : List Json) : Json
  | obj (fields : List (PyStr × Json)) : Json

instance : Inhabited Json := ⟨Json.null⟩

instance : Nonempty Json := ⟨Json.null⟩

/-- Python truthiness of a parsed JSON value: `None`, `False`, `0`, `""`,
`[]` and an empty dict are falsy, everything else is truthy. -/
def truthy : Json → Bool
  | .null => false
  | .bool b => b
  | .num n => n != 0
  | .str s => !s.isEmpty
  | .arr elems => !elems.isEmpty
  | .obj fields => !fields.isEmpty

/-- Truthiness of an optional value; `none` embeds Python `None`. -/
def truthyOpt : Option Json → Bool
  | none => false
  | some j => truthy j

/-- Python `res.get(k)` on a parsed JSON value: field lookup on a dict,
`none` when the key is absent.  On a non-dict Python raises instead; the
call sites below only ever consume the answer inside a success gate, and
an exception likewise displays no success message, so `none` is the
faithful observable value there. -/
def pyGet : Json → PyStr → Option Json
  | .obj fields, k => List.lookup k fields
  | _, _ => none

/-- One delivered HTTP response, as seen after `requests` returns.
`json` is the result of `r.json()` (`none` models the decode exception);
`statusErrText` is the message of the `HTTPError` that `raise_for_status`
raises for a 4xx/5xx status; `decodeErrText` is the message of the
exception `r.json()` raises when the body is not valid JSON. -/
structure HttpResponse where
  status : Nat
  text : PyStr
  json : Option Json
  statusErrText : PyStr
  decodeErrText : PyStr

/-- The outcome of one network call: an exception raised by the
`requests` call itself (timeout, connection failure), or a delivered
response. -/
inductive Transport where
  | fail (err : PyStr) : Transport
  | resp (r : HttpResponse) : Transport

/-- Condition under which `requests.Response.raise_for_status` raises an
`HTTPError`: client errors (4xx) and server errors (5xx) only. -/
def raisesForStatus (status : Nat) : Bool :=
  400 ≤ status && status < 600

/-- Embedding of `api_get` (src/streamlit_app.py lines 19-27): build
the url by appending the path to API_BASE, perform the GET,
`raise_for_status`, parse the body; any exception is caught, shown as an
`st.error` message of the form GET url arrow detail, and turned into a
`None` result.  Returns the result value together with the list of
`st.error` messages displayed. -/
def api_get (API_BASE path : PyStr) (t : Transport) : Option Json × List PyStr :=
  let url := API_BASE ++ path
  match t with
  | .fail e => (none, [str "GET " ++ url ++ str " → " ++ e])
  | .resp r =>
    if raisesForStatus r.status then
      (none, [str "GET " ++ url ++ str " → " ++ r.statusErrText])
    else
      match r.json with
      | some j => (some j, [])
      | none => (none, [str "GET " ++ url ++ str " → " ++ r.decodeErrText])

/-- Embedding of `api_post` (src/streamlit_app.py lines 29-41): build the
url, POST the payload, on `status_code >= 400` display an `st.error`
message of the form POST url arrow status colon body, then
`raise_for_status`; on a surviving response return the parsed body when
`r.text` is non-empty and the empty dict otherwise.  Any exception is
caught, shown as an `st.error` message of the form POST url arrow
detail, and yields `None`. -/
def api_post (API_BASE path : PyStr) (payload : Option Json) (t : Transport) :
    Option Json × List PyStr :=
  let url := API_BASE ++ path
  match t with
  | .fail e => (none, [str "POST " ++ url ++ str " → " ++ e])
  | .resp r =>
    let statusMsgs : List PyStr :=
      if 400 ≤ r.status then
        [str "POST " ++ url ++ str " → " ++ natRepr r.status ++ str ": " ++ r.text]
      else []
    if raisesForStatus r.status then
      (none, statusMsgs ++ [str "POST " ++ url ++ str " → " ++ r.statusErrText])
    else if r.text.isEmpty then
      (some (Json.obj []), statusMsgs)
    else
      match r.json with
      | some j => (some j, statusMsgs)
      | none => (none, statusMsgs ++ [str "POST " ++ url ++ str " → " ++ r.decodeErrText])

/-- Hardcoded default base URL (src/streamlit_app.py line 11). -/
def DEFAULT_API : PyStr := str "https://esa-dropshipping.onrender.com"

/-- Python `s.endswith(suffix)`: suffix test on code points. -/
def pyEndswith (s suffix : PyStr) : Bool := decide (suffix <:+ s)

/-- Embedding of the base-URL resolution (src/streamlit_app.py lines
11-17): start from `st.secrets.get("API_BASE_URL", DEFAULT_API)`, let the
sidebar text input override it, then strip one trailing slash:
`if API_BASE.endswith("/"): API_BASE = API_BASE[:-1]`.  Python `s[:-1]`
drops the last code point. -/
def resolveApiBase (secretOverride userEdit : Option PyStr) : PyStr :=
  let fromConfig := secretOverride.getD DEFAULT_API
  let API_BASE := userEdit.getD fromConfig
  if pyEndswith API_BASE (str "/") then API_BASE.dropLast else API_BASE

/-- One order row as consumed by the overview panel: the `status` column
value.  Per the data model every order carries an enumerated `status`
string. -/
structure OrderRec where
  status : PyStr
deriving DecidableEq

/-- Number of orders whose status equals `s`: embeds
`df_orders["status"].value_counts().get(s, 0)` — the count of rows whose
status column equals `s`, defaulting to `0` when no row matches. -/
def statusCount (orders : List OrderRec) (s : PyStr) : Nat :=
  (orders.filter (fun o => o.status == s)).length

/-- What the overview panel renders (src/streamlit_app.py lines 58-80):
guidance when `GET /orders` yielded `None`, an empty-state note when the
list is empty, and otherwise the five status metrics. -/
inductive OverviewView where
  | missingEndpoint : OverviewView
  | noOrders : OverviewView
  | metrics (pending forwarding atDf enMx entregadas : Nat) : OverviewView
deriving DecidableEq

/-- Embedding of the overview panel (src/streamlit_app.py lines 58-80):
`orders = api_get("/orders")`; on `None` show guidance; on a non-empty
list show the five `value_counts`-based metrics in source order
(Pending, Forwarding, At DF, En MX, Entregadas); otherwise an info note. -/
def tab_overview : Option (List OrderRec) → OverviewView
  | none => .missingEndpoint
  | some orders =>
    if orders.isEmpty then .noOrders
    else
      .metrics (statusCount orders (str "pending"))
        (statusCount orders (str "forwarding"))
        (statusCount orders (str "at_df"))
        (statusCount orders (str "in_transit_mx"))
        (statusCount orders (str "delivered"))

/-- One product row as consumed by the orders panel: the fields used to
build the selection label and the payload (`p["id"]`, `p["name"]`,
`p["sku"]`). -/
structure ProductRec where
  id : Int
  name : PyStr
  sku : PyStr
deriving DecidableEq

/-- Selectbox label for a product (src/streamlit_app.py line 117): the
id in square brackets, the name, and the SKU in parentheses. -/
def productLabel (p : ProductRec) : PyStr :=
  str "[" ++ intRepr p.id ++ str "] " ++ p.name ++ str " (SKU " ++ p.sku
    ++ str ")"

/-- Python dict insertion: an existing key keeps its position and takes
the new value, a new key is appended. -/
def dictInsert (m : List (PyStr × Int)) (k : PyStr) (v : Int) :
    List (PyStr × Int) :=
  if m.any (fun kv => kv.1 == k) then
    m.map (fun kv => if kv.1 == k then (kv.1, v) else kv)
  else m ++ [(k, v)]

/-- Embedding of the `product_map` dict comprehension
(src/streamlit_app.py line 117), mapping each product label to the
product id, with Python dict semantics on duplicate labels. -/
def product_map (products : List ProductRec) : List (PyStr × Int) :=
  products.foldl (fun m p => dictInsert m (productLabel p) p.id) []

/-- One line item of the order-creation payload: the selected product id
and the quantity cast with `int` (src/streamlit_app.py line 130). -/
structure OrderItem where
  product_id : Int
  qty : Int
deriving DecidableEq

/-- The JSON payload posted to `/orders/` by the order-creation form. -/
structure OrderPayload where
  customer_name : PyStr
  customer_email : PyStr
  ship_to_city : PyStr
  ship_to_state : PyStr
  ship_to_zip : PyStr
  items : List OrderItem
deriving DecidableEq

/-- The widget state of the order-creation form at submission time:
the five text fields, the index of the option picked in the product
selectbox, and the quantity (the widget enforces `qty ≥ 1`). -/
structure OrderFormInput where
  customer_name : PyStr
  customer_email : PyStr
  ship_to_city : PyStr
  ship_to_state : PyStr
  ship_to_zip : PyStr
  choice : Nat
  qty : Int
deriving DecidableEq

/-- Outcome of clicking "Crear orden": either blocked client-side with an
`st.error` message and no request sent, or a POST request to `path` with
the given payload. -/
inductive OrderSubmit where
  | blocked (msg : PyStr) : OrderSubmit
  | requested (path : PyStr) (payload : OrderPayload) : OrderSubmit
deriving DecidableEq

/-- Embedding of the order-creation form logic (src/streamlit_app.py
lines 114-150): when `product_map` is non-empty the selectbox yields one
of its keys (modelled by reducing `choice` modulo the number of options)
and `items` holds the id of that product with the chosen quantity; when it is
empty `items = []`.  On submission, empty `items` shows
`st.error("Agrega al menos un producto.")` and sends nothing; otherwise
the payload is posted to `/orders/`.  The `getD` defaults are dead code:
the selected label is always one of the dict keys. -/
def tab_orders_submit (products : List ProductRec) (inp : OrderFormInput) :
    OrderSubmit :=
  let m := product_map products
  let items : List OrderItem :=
    if m.isEmpty then []
    else
      let labels := m.map Prod.fst
      let prod_label := labels.getD (inp.choice % labels.length) []
      [⟨(List.lookup prod_label m).getD 0, inp.qty⟩]
  if items.isEmpty then .blocked (str "Agrega al menos un producto.")
  else
    .requested (str "/orders/")
      ⟨inp.customer_name, inp.customer_email, inp.ship_to_city,
        inp.ship_to_state, inp.ship_to_zip, items⟩

/-- Success rendering of the product-creation call site
(src/streamlit_app.py lines 109-111): `res = api_post("/products/", ...)`,
then `if res:` display `st.success` with `res.get` of id and name.  Returns the displayed field pair, `none` when no
success message is shown. -/
def create_product_view : Option Json → Option (Option Json × Option Json)
  | some j =>
    if truthy j then some (pyGet j (str "id"), pyGet j (str "name"))
    else none
  | none => none

/-- Success rendering of the order-creation call site
(src/streamlit_app.py lines 148-150): `if res:` display `st.success` with
`res.get` of id and customer_name. -/
def create_order_view : Option Json → Option (Option Json × Option Json)
  | some j =>
    if truthy j then some (pyGet j (str "id"), pyGet j (str "customer_name"))
    else none
  | none => none

/-- Success rendering of the shipment-creation call site
(src/streamlit_app.py lines 180-182): `if res:` display `st.success` with
`res.get` of id and order_id. -/
def create_shipment_view : Option Json → Option (Option Json × Option Json)
  | some j =>
    if truthy j then some (pyGet j (str "id"), pyGet j (str "order_id"))
    else none
  | none => none

/-- Success rendering of the shipment status-update call site
(src/streamlit_app.py lines 190-194): after posting to the
status-update path, when res is truthy and `res.get` of ok is truthy,
display an `st.success` message of the form Shipment id arrow status.  A truthy
non-dict `res` makes Python raise at `res.get`, which likewise displays
no success message, so `none` is the faithful observable value there. -/
def update_status_view (shipment_id : Int) (new_status : PyStr)
    (res : Option Json) : Option PyStr :=
  if truthyOpt res && truthyOpt (res.bind (fun j => pyGet j (str "ok"))) then
    some (str "Shipment " ++ intRepr shipment_id ++ str " → " ++ new_status)
  else none

/-- Failure cases of a GET exchange in which the source helper produces
an error: an exception from the `requests` call itself, or a delivered
response whose status makes `raise_for_status` raise (4xx/5xx). -/
def transportErrorOrHttpError : Transport → Prop
  | .fail _ => True
  | .resp r => 400 ≤ r.status ∧ r.status < 600

/-- Helper: the slash literal as a one-character list. -/
theorem slash_chars : str "/" = ['/'] := rfl

/-- Helper: a successful lookup means the dict is non-empty. -/
theorem lookup_ne_nil {fields : List (PyStr × Json)} {v : Json}
    (h : List.lookup (str "ok") fields = some v) : fields.isEmpty = false := by
  cases fields with
  | nil => simp [List.lookup] at h
  | cons kv rest => rfl

/-- Helper: the status-update success message is displayed exactly when
the Python condition `res and res.get` of ok is truthy. -/
theorem update_status_gate (shipment_id : Int) (new_status : PyStr)
    (res : Option Json) :
    update_status_view shipment_id new_status res ≠ none ↔
      (truthyOpt res && truthyOpt (res.bind fun j => pyGet j (str "ok")))
        = true := by
  unfold update_status_view
  by_cases h :
      (truthyOpt res && truthyOpt (res.bind fun j => pyGet j (str "ok")))
        = true
  · simp [h]
  · simp [h]

/-- C1 (counterexample): the claim says every non-2xx status makes
`api_get` return null and display an error, but `raise_for_status` only
raises for 4xx/5xx.  A delivered 304 response with a parseable body is
returned as JSON with no error message displayed, although 304 is not a
2xx status. -/
theorem api_get_non2xx_counterexample :
    api_get (str "http://h") (str "/orders")
        (.resp ⟨304, str "x", some (Json.arr [Json.num 1]), str "e1", str "e2"⟩)
      = (some (Json.arr [Json.num 1]), []) ∧ ¬(200 ≤ 304 ∧ 304 ≤ 299) :=
  ⟨rfl, by decide⟩

/-- C1 (amended): for every GET request issued by `api_get`, if the call
suffers a transport error or the delivered status is 4xx/5xx (the
statuses `raise_for_status` raises on), then `api_get` returns null and
displays exactly one error message containing the requested URL, and
never propagates an exception (the embedding is a total function). -/
theorem api_get_failure_spec (API_BASE path : PyStr) (t : Transport)
    (h : transportErrorOrHttpError t) :
    (api_get API_BASE path t).1 = none ∧
    ∃ m, (api_get API_BASE path t).2 = [m] ∧ (API_BASE ++ path) <:+: m := by
  cases t with
  | fail e =>
    exact ⟨rfl, str "GET " ++ (API_BASE ++ path) ++ str " → " ++ e, rfl,
      str "GET ", str " → " ++ e, by simp⟩
  | resp r =>
    obtain ⟨h4, h6⟩ := h
    have hr : raisesForStatus r.status = true := by
      simp only [raisesForStatus, Bool.and_eq_true, decide_eq_true_eq]
      omega
    refine ⟨by simp [api_get, hr],
      str "GET " ++ (API_BASE ++ path) ++ str " → " ++ r.statusErrText,
      by simp [api_get, hr], str "GET ", str " → " ++ r.statusErrText, by simp⟩

/-- C1 (witness): a timed-out GET to a concrete URL returns null and
displays one message containing that URL. -/
theorem api_get_failure_spec_witness :
    (api_get (str "http://h") (str "/orders") (.fail (str "timed out"))).1
      = none ∧
    ∃ m, (api_get (str "http://h") (str "/orders")
        (.fail (str "timed out"))).2 = [m] ∧
      (str "http://h" ++ str "/orders") <:+: m :=
  api_get_failure_spec (str "http://h") (str "/orders")
    (.fail (str "timed out")) trivial

/-- C2: for every POST whose delivered status is 4xx/5xx, `api_post`
returns null and some displayed message contains both the decimal status
code and the raw response body text. -/
theorem api_post_error_status_spec (API_BASE path : PyStr)
    (payload : Option Json) (r : HttpResponse)
    (h4 : 400 ≤ r.status) (h6 : r.status < 600) :
    (api_post API_BASE path payload (.resp r)).1 = none ∧
    ∃ m, m ∈ (api_post API_BASE path payload (.resp r)).2 ∧
      natRepr r.status <:+: m ∧ r.text <:+: m := by
  have hr : raisesForStatus r.status = true := by
    simp only [raisesForStatus, Bool.and_eq_true, decide_eq_true_eq]
    omega
  refine ⟨by simp [api_post, hr, h4], ?_⟩
  refine ⟨str "POST " ++ (API_BASE ++ path) ++ str " → " ++ natRepr r.status
      ++ str ": " ++ r.text, by simp [api_post, hr, h4], ?_, ?_⟩
  · exact ⟨str "POST " ++ (API_BASE ++ path) ++ str " → ",
      str ": " ++ r.text, by simp⟩
  · exact ⟨str "POST " ++ (API_BASE ++ path) ++ str " → "
      ++ natRepr r.status ++ str ": ", [], by simp⟩

/-- C2 (witness): a POST answered with a 404 and body text returns null,
and a displayed message contains 404 and that body text. -/
theorem api_post_error_status_spec_witness :
    (api_post (str "http://h") (str "/products/") none
        (.resp ⟨404, str "not found", none, str "se", str "de"⟩)).1
      = none ∧
    ∃ m, m ∈ (api_post (str "http://h") (str "/products/") none
        (.resp ⟨404, str "not found", none, str "se", str "de"⟩)).2 ∧
      natRepr 404 <:+: m ∧ str "not found" <:+: m :=
  api_post_error_status_spec (str "http://h") (str "/products/") none
    ⟨404, str "not found", none, str "se", str "de"⟩ (by decide) (by decide)

/-- C3: for every POST whose delivered status is 2xx and whose body is
empty, `api_post` returns the empty record with no error message, a
value distinct from the null returned on failure. -/
theorem api_post_empty_body_spec (API_BASE path : PyStr)
    (payload : Option Json) (r : HttpResponse)
    (h2 : 200 ≤ r.status) (h3 : r.status ≤ 299) (he : r.text = []) :
    api_post API_BASE path payload (.resp r) = (some (Json.obj []), []) ∧
    some (Json.obj []) ≠ (none : Option Json) := by
  have h4 : ¬ 400 ≤ r.status := by omega
  have hr : raisesForStatus r.status = false := by
    simp [raisesForStatus, h4]
  exact ⟨by simp [api_post, hr, h4, he], by simp⟩

/-- C3 (witness): a 204 response with an empty body yields the empty
record and no messages. -/
theorem api_post_empty_body_spec_witness :
    api_post (str "http://h") (str "/shipping/create") none
        (.resp ⟨204, [], none, str "se", str "de"⟩)
      = (some (Json.obj []), []) ∧
    some (Json.obj []) ≠ (none : Option Json) :=
  api_post_empty_body_spec (str "http://h") (str "/shipping/create") none
    ⟨204, [], none, str "se", str "de"⟩ (by decide) (by decide) rfl

/-- C4: for every non-empty order list the overview panel renders the
five metrics, each equal to the number of orders carrying the
corresponding status string; a status absent from the list is counted as
zero because the matching count is empty. -/
theorem tab_overview_metrics_spec (orders : List OrderRec)
    (h : orders ≠ []) :
    tab_overview (some orders)
      = .metrics (orders.countP (fun o => o.status == str "pending"))
          (orders.countP (fun o => o.status == str "forwarding"))
          (orders.countP (fun o => o.status == str "at_df"))
          (orders.countP (fun o => o.status == str "in_transit_mx"))
          (orders.countP (fun o => o.status == str "delivered")) := by
  have he : orders.isEmpty = false := by simp [List.isEmpty_iff, h]
  simp [tab_overview, he, statusCount, List.countP_eq_length_filter]

/-- C4 (witness): the spec example list of two pending and one delivered
order yields Pending=2, Forwarding=0, At DF=0, En MX=0, Entregadas=1. -/
theorem tab_overview_metrics_spec_witness :
    tab_overview (some [⟨str "pending"⟩, ⟨str "pending"⟩,
        ⟨str "delivered"⟩])
      = .metrics 2 0 0 0 1 := by
  rw [tab_overview_metrics_spec _ (by decide)]
  decide

/-- C5: with an empty product catalog the order form blocks submission
with an error message and sends no request, and with a one-product
catalog and quantity 1 the submitted payload carries exactly one item
holding the id of that product and quantity 1. -/
theorem tab_orders_form_spec (inp : OrderFormInput) (p : ProductRec)
    (hq : inp.qty = 1) :
    tab_orders_submit [] inp
      = .blocked (str "Agrega al menos un producto.") ∧
    tab_orders_submit [p] inp
      = .requested (str "/orders/")
          ⟨inp.customer_name, inp.customer_email, inp.ship_to_city,
            inp.ship_to_state, inp.ship_to_zip, [⟨p.id, 1⟩]⟩ := by
  constructor
  · rfl
  · simp [tab_orders_submit, product_map, dictInsert, List.lookup, hq,
      Nat.mod_one]

/-- C5 (witness): concrete form state with quantity 1, once against an
empty catalog and once against a one-product catalog. -/
theorem tab_orders_form_spec_witness :
    tab_orders_submit []
        ⟨str "Juan Pérez", str "juan@example.com", str "Monterrey",
          str "NL", str "64000", 0, 1⟩
      = .blocked (str "Agrega al menos un producto.") ∧
    tab_orders_submit [⟨7, str "Playera básica", str "WAL-0001"⟩]
        ⟨str "Juan Pérez", str "juan@example.com", str "Monterrey",
          str "NL", str "64000", 0, 1⟩
      = .requested (str "/orders/")
          ⟨str "Juan Pérez", str "juan@example.com", str "Monterrey",
            str "NL", str "64000", [⟨7, 1⟩]⟩ :=
  tab_orders_form_spec
    ⟨str "Juan Pérez", str "juan@example.com", str "Monterrey",
      str "NL", str "64000", 0, 1⟩
    ⟨7, str "Playera básica", str "WAL-0001"⟩ rfl

/-- C6 (counterexample): the claim says a non-null response lacking a
true ok field displays no success confirmation, but the gate tests
Python truthiness, not the boolean true: a response whose ok field is
the number 1 displays the confirmation. -/
theorem update_status_truthy_ok_counterexample :
    update_status_view 1 (str "at_df")
        (some (Json.obj [(str "ok", Json.num 1)]))
      = some (str "Shipment 1 → at_df") ∧
    Json.num 1 ≠ Json.bool true :=
  ⟨rfl, fun h => Json.noConfusion h⟩

/-- C6 (amended): the status-update success confirmation is displayed
iff the response is a non-null record containing an ok field with a
truthy value; in particular a null result, a record with a false ok, or
any response without a truthy ok field displays no confirmation. -/
theorem update_status_success_iff (shipment_id : Int) (new_status : PyStr)
    (res : Option Json) :
    update_status_view shipment_id new_status res ≠ none ↔
      ∃ fields v, res = some (Json.obj fields) ∧
        List.lookup (str "ok") fields = some v ∧ truthy v = true := by
  rw [update_status_gate]
  cases res with
  | none => simp [truthyOpt]
  | some j =>
    cases j with
    | obj fields =>
      cases hlk : List.lookup (str "ok") fields with
      | none => simp [truthyOpt, pyGet, hlk]
      | some v =>
        have hne := lookup_ne_nil hlk
        simp [truthyOpt, pyGet, hlk, truthy, hne]
    | null => simp [truthyOpt, truthy]
    | bool b => simp [truthyOpt, pyGet]
    | num n => simp [truthyOpt, pyGet]
    | str s2 => simp [truthyOpt, pyGet]
    | arr elems => simp [truthyOpt, pyGet]

/-- C7: the resolver strips exactly one trailing slash — the result
followed by a slash restores the input — and returns a string with no
trailing slash unchanged. -/
theorem resolveApiBase_strip_one_slash_spec (sec : Option PyStr)
    (s : PyStr) :
    (pyEndswith s (str "/") = true →
      resolveApiBase sec (some s) ++ str "/" = s) ∧
    (pyEndswith s (str "/") = false → resolveApiBase sec (some s) = s) := by
  constructor
  · intro h
    obtain ⟨t, ht⟩ := of_decide_eq_true h
    simp only [resolveApiBase, Option.getD_some, if_pos h]
    rw [← ht, slash_chars, List.dropLast_concat]
  · intro h
    simp only [resolveApiBase, Option.getD_some,
      if_neg (by simp [h] : ¬ pyEndswith s (str "/") = true)]

/-- C7 (witness): one concrete URL with a trailing slash and one
without. -/
theorem resolveApiBase_strip_one_slash_spec_witness :
    (resolveApiBase none (some (str "http://api.example.com/"))
        ++ str "/" = str "http://api.example.com/") ∧
    (resolveApiBase none (some (str "http://api.example.com"))
        = str "http://api.example.com") :=
  ⟨(resolveApiBase_strip_one_slash_spec none
      (str "http://api.example.com/")).1 (by decide),
    (resolveApiBase_strip_one_slash_spec none
      (str "http://api.example.com")).2 (by decide)⟩

/-- C8 (counterexample): the claim says the resolved base URL never ends
with a trailing slash, but the resolver strips only one slash: an input
ending in two slashes resolves to a string still ending in a slash. -/
theorem resolveApiBase_double_slash_counterexample :
    pyEndswith (resolveApiBase none (some (str "x//"))) (str "/") = true := by
  decide

/-- C8 (amended): for every configured or user-supplied base URL that
does not end in two slashes, the resolved base URL does not end with a
trailing slash. -/
theorem resolveApiBase_no_trailing_slash_spec (sec us : Option PyStr)
    (h : pyEndswith (us.getD (sec.getD DEFAULT_API)) (str "//") = false) :
    pyEndswith (resolveApiBase sec us) (str "/") = false := by
  set s := us.getD (sec.getD DEFAULT_API) with hs
  have hres : resolveApiBase sec us
      = if pyEndswith s (str "/") then s.dropLast else s := rfl
  rw [hres]
  by_cases hone : pyEndswith s (str "/") = true
  · rw [if_pos hone]
    obtain ⟨t, ht⟩ := of_decide_eq_true hone
    rw [← ht, slash_chars, List.dropLast_concat]
    apply decide_eq_false
    rintro ⟨u, hu⟩
    apply of_decide_eq_false h
    refine ⟨u, ?_⟩
    rw [← ht, ← hu]
    simp [str]
  · rw [if_neg hone]
    simpa using hone

/-- C8 (witness): a concrete secret-configured base URL with one
trailing slash resolves to a URL without one. -/
theorem resolveApiBase_no_trailing_slash_spec_witness :
    pyEndswith (resolveApiBase (some (str "http://cfg/")) none) (str "/")
      = false :=
  resolveApiBase_no_trailing_slash_spec (some (str "http://cfg/")) none
    (by decide)

/-- C9: for every delivered 2xx response with a non-empty body that is
not valid JSON, both `api_get` and `api_post` display an error and
return null — the same null value a transport failure or error status
produces. -/
theorem malformed_json_body_spec (API_BASE path : PyStr)
    (payload : Option Json) (r : HttpResponse)
    (h2 : 200 ≤ r.status) (h3 : r.status ≤ 299)
    (ht : r.text ≠ []) (hj : r.json = none) :
    (api_get API_BASE path (.resp r)).1 = none ∧
    (api_get API_BASE path (.resp r)).2 ≠ [] ∧
    (api_post API_BASE path payload (.resp r)).1 = none ∧
    (api_post API_BASE path payload (.resp r)).2 ≠ [] := by
  have h4 : ¬ 400 ≤ r.status := by omega
  have hr : raisesForStatus r.status = false := by
    simp [raisesForStatus, h4]
  have hte : r.text.isEmpty = false := by
    simp [List.isEmpty_iff, ht]
  refine ⟨?_, ?_, ?_, ?_⟩ <;> simp [api_get, api_post, hr, h4, hj, hte]

/-- C9 (witness): a 200 response whose body is not JSON makes both
helpers return null with an error displayed. -/
theorem malformed_json_body_spec_witness :
    (api_get (str "http://h") (str "/health")
        (.resp ⟨200, str "oops", none, str "se", str "Expecting value"⟩)).1
      = none ∧
    (api_get (str "http://h") (str "/health")
        (.resp ⟨200, str "oops", none, str "se", str "Expecting value"⟩)).2
      ≠ [] ∧
    (api_post (str "http://h") (str "/health") none
        (.resp ⟨200, str "oops", none, str "se", str "Expecting value"⟩)).1
      = none ∧
    (api_post (str "http://h") (str "/health") none
        (.resp ⟨200, str "oops", none, str "se", str "Expecting value"⟩)).2
      ≠ [] :=
  malformed_json_body_spec (str "http://h") (str "/health") none
    ⟨200, str "oops", none, str "se", str "Expecting value"⟩
    (by decide) (by decide) (by decide) rfl

/-- C10: at every creation or update call site the success confirmation
is gated on truthiness of the `api_post` result, so the empty record
returned for a 2xx empty-body response renders exactly like the null
returned on failure: no confirmation at any of the four sites. -/
theorem empty_record_unobservable_spec (shipment_id : Int)
    (new_status : PyStr) :
    create_product_view (some (Json.obj [])) = create_product_view none ∧
    create_product_view none = none ∧
    create_order_view (some (Json.obj [])) = create_order_view none ∧
    create_order_view none = none ∧
    create_shipment_view (some (Json.obj [])) = create_shipment_view none ∧
    create_shipment_view none = none ∧
    update_status_view shipment_id new_status (some (Json.obj []))
      = update_status_view shipment_id new_status none ∧
    update_status_view shipment_id new_status none = none :=
  ⟨rfl, rfl, rfl, rfl, rfl, rfl, rfl, rfl⟩
